import Mathlib

/-!
Shallow embedding of the eduhelx-jupyterlab-student extension's
state-synchronization core, translated from the TypeScript sources:
`src/api/assignment.ts` (domain entity and facet flags), the assignment
context provider (websocket effect and poll loops), the assignment-info
editor (debounced date mutations and client-side validation), and the
submit form (gating and the submit flow).

Dates are modelled as epoch-millisecond integers (`Int`); the wire
timestamps are nonempty ISO strings in the real system, so the JS
truthiness test `data.adjusted_available_date ? ... : null` reduces to a
null check, modelled with `Option Int`.  The `undefined | null | T`
value space of TypeScript is modelled as `Option (Option T)`: `none` is
`undefined`, `some none` is `null`.
-/

/-- Modelled from the usage sites in `assignment.ts` (the Submission class
source file is not part of the provided sources): a submission carries an
identity and a submission timestamp (`submissionTime.getTime()` is the
only field the assignment logic reads). -/
structure Submission where
  id : Nat
  submissionTime : Int
deriving DecidableEq, Repr

/-- Wire shape of a submission, with the timestamp already parsed. -/
structure SubmissionResponse where
  id : Nat
  submission_time : Int
deriving DecidableEq, Repr

/-- Conversion of a wire submission to the domain entity (identity on the
modelled fields). -/
def Submission.fromResponse (r : SubmissionResponse) : Submission :=
  { id := r.id, submissionTime := r.submission_time }

/-- Domain entity from `assignment.ts` (class `Assignment`).  The five
boolean facets are stored fields, exactly as in the source constructor. -/
structure Assignment where
  id : Nat
  name : String
  directoryPath : String
  absoluteDirectoryPath : String
  createdDate : Int
  adjustedAvailableDate : Option Int
  adjustedDueDate : Option Int
  lastModifiedDate : Int
  isDeferred : Bool
  isExtended : Bool
  isCreated : Bool
  isAvailable : Bool
  isClosed : Bool
  submissions : Option (List Submission)
deriving DecidableEq, Repr

/-- Wire shape `AssignmentResponse` consumed by `Assignment.fromResponse`. -/
structure AssignmentResponse where
  id : Nat
  name : String
  directory_path : String
  absolute_directory_path : String
  created_date : Int
  adjusted_available_date : Option Int
  adjusted_due_date : Option Int
  last_modified_date : Int
  is_deferred : Bool
  is_extended : Bool
  is_created : Bool
  is_available : Bool
  is_closed : Bool
  submissions : Option (List SubmissionResponse)
deriving DecidableEq, Repr

/-- Translation of `Assignment.fromResponse` (`assignment.ts`, lines
82-100).  Note that `is_deferred` through `is_closed` are copied verbatim
from the response; the nullable dates mirror the source conditionals
`data.adjusted_available_date ? new Date(...) : null`. -/
def Assignment.fromResponse (data : AssignmentResponse) : Assignment where
  id := data.id
  name := data.name
  directoryPath := data.directory_path
  absoluteDirectoryPath := data.absolute_directory_path
  createdDate := data.created_date
  adjustedAvailableDate :=
    match data.adjusted_available_date with
    | some d => some d
    | none => none
  adjustedDueDate :=
    match data.adjusted_due_date with
    | some d => some d
    | none => none
  lastModifiedDate := data.last_modified_date
  isDeferred := data.is_deferred
  isExtended := data.is_extended
  isCreated := data.is_created
  isAvailable := data.is_available
  isClosed := data.is_closed
  submissions := data.submissions.map (fun subs => subs.map Submission.fromResponse)

/-- The facet invariant claimed by the specification for a constructed
assignment: closed implies available implies created, and created holds
exactly when both adjusted dates are non-null. -/
def Assignment.facetOk (a : Assignment) : Prop :=
  (a.isClosed = true → a.isAvailable = true) ∧
  (a.isAvailable = true → a.isCreated = true) ∧
  (a.isCreated = true ↔ (a.adjustedAvailableDate.isSome = true ∧ a.adjustedDueDate.isSome = true))

instance (a : Assignment) : Decidable a.facetOk := by
  unfold Assignment.facetOk; infer_instance

/-- The same facet condition read directly off the wire fields of a
server response. -/
def AssignmentResponse.facetOk (r : AssignmentResponse) : Prop :=
  (r.is_closed = true → r.is_available = true) ∧
  (r.is_available = true → r.is_created = true) ∧
  (r.is_created = true ↔ (r.adjusted_available_date.isSome = true ∧ r.adjusted_due_date.isSome = true))

instance (r : AssignmentResponse) : Decidable r.facetOk := by
  unfold AssignmentResponse.facetOk; infer_instance

/-- The date-ordering precondition of the claim: whenever both adjusted
dates are present in the response, the due date is at or after the
available date. -/
def AssignmentResponse.datesOrdered (r : AssignmentResponse) : Bool :=
  match r.adjusted_available_date, r.adjusted_due_date with
  | some av, some du => decide (av ≤ du)
  | _, _ => true

/-- Ordering used by the `activeSubmission` getter: the source comparator
is `(a, b) => b.submissionTime.getTime() - a.submissionTime.getTime()`,
i.e. `a` sorts before `b` exactly when `b.submissionTime ≤
a.submissionTime` (descending by submission time). -/
def subTimeGe (a b : Submission) : Prop :=
  b.submissionTime ≤ a.submissionTime

instance : DecidableRel subTimeGe := fun a b =>
  inferInstanceAs (Decidable (b.submissionTime ≤ a.submissionTime))

instance : IsTotal Submission subTimeGe :=
  ⟨fun a b => le_total b.submissionTime a.submissionTime⟩

instance : IsTrans Submission subTimeGe :=
  ⟨fun _ _ _ hab hbc => le_trans hbc hab⟩

/-- Model of `this._submissions.sort(comparator)`: a comparator-correct
stable sort, descending by submission time.  Insertion sort is used as
the concrete executable model; every property proved about it below is a
property of any comparator-correct sort. -/
def sortSubmissions (l : List Submission) : List Submission :=
  l.insertionSort subTimeGe

/-- Translation of the getter `Assignment.activeSubmission`
(`assignment.ts`, lines 75-79) as a pure value: `none` when submissions
are unknown, `some none` when the list is empty, otherwise the first
element of the descending sort. -/
def Assignment.activeSubmission (a : Assignment) : Option (Option Submission) :=
  match a.submissions with
  | none => none
  | some subs =>
    if subs.length = 0 then some none
    else some (sortSubmissions subs).head?

/-- Translation of the getter `Assignment.activeSubmission` together
with its effect on the receiver: `Array.prototype.sort` sorts
`this._submissions` in place, so in the branch that sorts, the post-state
assignment carries the sorted list. -/
def Assignment.activeSubmissionRead (a : Assignment) : Option (Option Submission) × Assignment :=
  match a.submissions with
  | none => (none, a)
  | some subs =>
    if subs.length = 0 then (some none, a)
    else (some (sortSubmissions subs).head?, { a with submissions := some (sortSubmissions subs) })

/-! ### Assignment poll loop (context provider, assignment-domain effect)

Translation of the `useEffect` keyed on `currentPath`: one scheduled poll
iteration fetches `getAssignments(currentPath)` (skipped when the path is
null), emits a snackbar warning when the fetch throws, then — unless the
iteration's cancellation flag has been set by the effect cleanup — writes
the two snapshot slots and schedules the next iteration.  Slot values
live in `Option (Option _)`: `none` is the unfetched/loading `undefined`,
`some none` is an explicit `null` from the server. -/

/-- Result shape of `getAssignments`: the list and the current assignment
are each nullable, but the pair always arrives together. -/
structure GetAssignmentsResponse where
  assignments : Option (List Assignment)
  currentAssignment : Option Assignment
deriving DecidableEq, Repr

/-- The two snapshot slots owned by the assignment-domain poll loop. -/
structure Slots where
  assignments : Option (Option (List Assignment))
  currentAssignment : Option (Option Assignment)
deriving DecidableEq, Repr

/-- Warning message the poll loop emits on a failed fetch. -/
def failWarning : String := "Failed to pull assignments..."

/-- One iteration of the assignment poll loop (provider source, lines
95-117).  Inputs: the context path at effect start, the outcome of the
fetch (only consulted when the path is non-null), the value of the
iteration's `cancelled` flag at the moment the fetch resolves, and the
slots as they stand.  Output: the slots after the iteration, the warnings
emitted, and whether the next iteration was scheduled. -/
def pollIteration (currentPath : Option String)
    (fetchResult : Except Unit GetAssignmentsResponse)
    (cancelled : Bool) (st : Slots) : Slots × List String × Bool :=
  let value : Option GetAssignmentsResponse :=
    match currentPath, fetchResult with
    | none, _ => none
    | some _, Except.ok v => some v
    | some _, Except.error _ => none
  let warnings : List String :=
    match currentPath, fetchResult with
    | some _, Except.error _ => [failWarning]
    | _, _ => []
  if cancelled then (st, warnings, false)
  else
    match value with
    | some v => ({ assignments := some v.assignments, currentAssignment := some v.currentAssignment }, warnings, true)
    | none => ({ assignments := none, currentAssignment := none }, warnings, true)

/-- A run of consecutive (uncancelled) poll iterations with the given
fetch outcomes, threading the slots through. -/
def runPoll (currentPath : Option String) (st : Slots) :
    List (Except Unit GetAssignmentsResponse) → Slots
  | [] => st
  | r :: rs => runPoll currentPath (pollIteration currentPath r false st).1 rs

/-! ### Websocket effect (push-channel client)

Translation of the `useEffect` keyed on `ws` (provider source, lines
52-76).  The effect attaches a message listener and a close listener
(`triggerReconnect`) to the socket; its cleanup calls `ws.close()` but
does not remove the close listener and checks no liveness flag.
`triggerReconnect` closes the socket and immediately constructs a
replacement `WebSocket` — the declared `WEBSOCKET_REOPEN_DELAY` constant
is never referenced. -/

/-- The reopen-delay constant declared at the top of the provider source
(line 31).  No code path uses it. -/
def WEBSOCKET_REOPEN_DELAY : Nat := 1000

/-- Observable state of the push-channel client: whether the current
socket is open, whether the close listener is still attached, whether the
effect has been cleaned up, and how many `WebSocket` constructions have
run (each one opens a connection). -/
structure WsClientState where
  socketOpen : Bool
  closeListenerAttached : Bool
  disposed : Bool
  connectionsOpened : Nat
deriving DecidableEq, Repr

/-- State right after the provider mounts: the initial socket was
constructed by the `useState` initializer and the effect attached its
listeners. -/
def initialWsClient : WsClientState :=
  { socketOpen := true, closeListenerAttached := true, disposed := false, connectionsOpened := 1 }

/-- Effect cleanup at component teardown: `ws.close()` only — the close
listener stays attached and no liveness flag is recorded for the
listener to consult. -/
def disposeWs (st : WsClientState) : WsClientState :=
  { st with socketOpen := false, disposed := true }

/-- The close listener `triggerReconnect`: `ws.close()` followed
synchronously by `setWs(new WebSocket(WEBSOCKET_URL))`, which constructs
(and hence opens) a replacement connection. -/
def triggerReconnect (st : WsClientState) : WsClientState :=
  { st with socketOpen := true, connectionsOpened := st.connectionsOpened + 1 }

/-- Delivery of the socket's close event: runs `triggerReconnect` when
the listener is attached. -/
def onCloseEvent (st : WsClientState) : WsClientState :=
  if st.closeListenerAttached then triggerReconnect st else st

/-- The delay with which the close handler schedules the replacement
connection: there is none — `triggerReconnect` constructs the new socket
synchronously, with no `setTimeout`. -/
def reconnectScheduleDelay : Option Nat := none

/-! ### Debounced mutation path (assignment-info editor)

The editor wires each date field through
`useDebouncedCallback(handler, 1000, { leading: true })` (editor source,
lines 140-172).  The model below follows the lodash-style algorithm that
`use-debounce` implements, specialized to `leading = true`,
`trailing = true` (the default) and no `maxWait`: a call when no timer is
active and at least `wait` has elapsed since the last call invokes
immediately (leading edge) and arms the timer; any other call only
records its arguments as the pending trailing arguments; the armed timer
effectively fires `wait` after the most recent call, invoking with the
pending arguments if any. -/

/-- Debounce bookkeeping: time of the most recent call, pending trailing
arguments (cleared by every invocation), and whether the timer is armed. -/
structure DebState (V : Type) where
  lastCallTime : Option Nat
  lastArgs : Option V
  timerActive : Bool
deriving DecidableEq, Repr

/-- Debounce state before any call. -/
def debInit {V : Type} : DebState V :=
  { lastCallTime := none, lastArgs := none, timerActive := false }

/-- Fire the armed timer if its effective expiry (`wait` after the most
recent call) is at or before time `t`: the trailing invocation carries
the pending arguments, if any, and disarms the timer. -/
def fireTimer {V : Type} (wait t : Nat) (st : DebState V) : List (Nat × V) × DebState V :=
  match st.timerActive, st.lastCallTime with
  | true, some lc =>
    if lc + wait ≤ t then
      match st.lastArgs with
      | some a => ([(lc + wait, a)], { lastCallTime := some lc, lastArgs := none, timerActive := false })
      | none => ([], { lastCallTime := some lc, lastArgs := none, timerActive := false })
    else ([], st)
  | _, _ => ([], st)

/-- A call to the debounced function at time `t` with argument `v`
(timer expiries at or before `t` are assumed already fired). -/
def debCall {V : Type} (wait t : Nat) (v : V) (st : DebState V) : List (Nat × V) × DebState V :=
  let shouldInvoke :=
    match st.lastCallTime with
    | none => true
    | some lc => lc + wait ≤ t
  if shouldInvoke && !st.timerActive then
    ([(t, v)], { lastCallTime := some t, lastArgs := none, timerActive := true })
  else
    ([], { lastCallTime := some t, lastArgs := some v, timerActive := true })

/-- Process a time-ordered list of calls, then let the armed timer (if
any) fire its trailing invocation. -/
def debRun {V : Type} (wait : Nat) (st : DebState V) : List (Nat × V) → List (Nat × V)
  | [] =>
    match st.timerActive, st.lastCallTime, st.lastArgs with
    | true, some lc, some a => [(lc + wait, a)]
    | _, _, _ => []
  | (t, v) :: rest =>
    let fired := fireTimer wait t st
    let called := debCall wait t v fired.2
    fired.1 ++ called.1 ++ debRun wait called.2 rest

/-- The full invocation trace a fresh debounced callback produces for a
time-ordered list of calls. -/
def runDebounce {V : Type} (wait : Nat) (calls : List (Nat × V)) : List (Nat × V) :=
  debRun wait debInit calls

/-- The two debounced date fields of the editor; each owns an independent
`useDebouncedCallback` instance. -/
inductive EditField
  | availableDate
  | dueDate
deriving DecidableEq, Repr

/-- Outbound writes produced for one field by a stream of field-tagged
edits: the field's own debouncer sees exactly the edits tagged with it. -/
def writesFor {V : Type} (wait : Nat) (f : EditField) (edits : List (EditField × Nat × V)) :
    List (Nat × V) :=
  runDebounce wait ((edits.filter (fun e => decide (e.1 = f))).map (fun e => e.2))

/-! ### Client-side date validation (editor onChange handlers)

Translation of the two `TextField` onChange handlers (editor source,
lines 269-277 and 298-307).  The editor's assignment view exposes raw
`availableDate` / `dueDate` fields.  An edited value is modelled as
`Option Int`: `none` stands for the empty input, whose `new Date("")` is
an invalid date and compares false against everything, so clearing a
field is never rejected. -/

/-- The fields of the editor's assignment view that the onChange
handlers read. -/
structure EditorAssignment where
  name : String
  availableDate : Option Int
  dueDate : Option Int
deriving DecidableEq, Repr

/-- Which date field an outbound `updateAssignment` write targets. -/
inductive DateField
  | available_date
  | due_date
deriving DecidableEq, Repr

/-- An outbound write produced by a date edit. -/
structure UpdateReq where
  field : DateField
  value : Option Int
deriving DecidableEq, Repr

/-- The available-date onChange handler: when a due date exists and the
new available date is at or after it, the event is rejected — the
controlled value stays as it was and no write is handed to the debounced
callback; otherwise the controlled value is updated and a write is
produced. -/
def onAvailableDateEdit (asg : EditorAssignment) (controlled : Option Int)
    (newValue : Option Int) : Option Int × List UpdateReq :=
  match asg.dueDate, newValue with
  | some due, some n =>
    if due ≤ n then (controlled, [])
    else (newValue, [{ field := DateField.available_date, value := newValue }])
  | _, _ => (newValue, [{ field := DateField.available_date, value := newValue }])

/-- The due-date onChange handler: when an available date exists and the
new due date is at or before it, the event is rejected; otherwise the
controlled value is updated and a write is produced. -/
def onDueDateEdit (asg : EditorAssignment) (controlled : Option Int)
    (newValue : Option Int) : Option Int × List UpdateReq :=
  match asg.availableDate, newValue with
  | some av, some n =>
    if n ≤ av then (controlled, [])
    else (newValue, [{ field := DateField.due_date, value := newValue }])
  | _, _ => (newValue, [{ field := DateField.due_date, value := newValue }])

/-! ### Submit gating (submit form)

Translation of `disabled` / `disabledReason` (submit-form source, lines
27-35) and of `submitAssignment` (lines 37-62). -/

/-- The assignment facets the submit form's gating reads. -/
structure GatingAssignment where
  isAvailable : Bool
  isClosed : Bool
deriving DecidableEq, Repr

/-- The course data the gating reason reads: the number of instructors
(`course.instructors.length`). -/
structure CourseInfo where
  instructors : Nat
deriving DecidableEq, Repr

/-- The gating check `disabled = submitting || summaryText === "" ||
!assignment?.isAvailable || assignment?.isClosed`. -/
def submitDisabled (submitting : Bool) (summaryText : String)
    (assignment : Option GatingAssignment) : Bool :=
  submitting || summaryText == "" ||
    !(match assignment with
      | some a => a.isAvailable
      | none => false) ||
    (match assignment with
      | some a => a.isClosed
      | none => false)

/-- Reason string of the `assignment.isClosed` branch. -/
def pastDueReason (course : CourseInfo) : String :=
  "Past due. Please contact your instructor" ++
    (if 1 < course.instructors then "s" else "") ++ " if you need an extension"

/-- Reason string of the `!assignment.isAvailable` branch. -/
def notAvailableReason : String := "Assignment is not available for you to work on yet"

/-- Reason string of the `submitting` branch. -/
def uploadingReason : String := "Currently uploading submission"

/-- Reason string of the empty-summary branch. -/
def emptySummaryReason : String := "Please enter a summary for the submission"

/-- The `disabledReason` conditional chain, evaluated in source order. -/
def submitDisabledReason (submitting : Bool) (summaryText : String)
    (assignment : Option GatingAssignment) (course : CourseInfo) : Option String :=
  if submitDisabled submitting summaryText assignment then
    match assignment with
    | none => none
    | some a =>
      if submitting then some uploadingReason
      else if !a.isAvailable then some notAvailableReason
      else if a.isClosed then some (pastDueReason course)
      else if summaryText == "" then some emptySummaryReason
      else none
  else none

/-! ### Submit flow (summary/description clearing) -/

/-- The notifications the submit flow can open. -/
inductive SnackbarKind
  | success
  | error
deriving DecidableEq, Repr

/-- The two controlled text inputs of the submit form. -/
structure SubmitFormState where
  summaryText : String
  descriptionText : String
deriving DecidableEq, Repr

/-- Translation of `submitAssignment` (submit-form source, lines 37-62):
with no path, log and return without a request; otherwise the fields are
cleared and a success notification shown exactly when the request
resolves, and on a failed request the fields are left as they were and an
error notification is shown.  (The transient `submitting` flag is set
at entry and reset before returning on every path, so it is omitted.)
Output: post-state, notifications opened, and whether a request was sent. -/
def submitAssignmentFlow (path : Option String) (requestResult : Except Unit Unit)
    (st : SubmitFormState) : SubmitFormState × List SnackbarKind × Bool :=
  match path with
  | none => (st, [], false)
  | some _ =>
    match requestResult with
    | Except.ok _ => ({ summaryText := "", descriptionText := "" }, [SnackbarKind.success], true)
    | Except.error _ => (st, [SnackbarKind.error], true)

/-! ### Concrete inputs used by counterexamples and witnesses -/

/-- A server response with correctly ordered dates (due after available)
whose facet flags nevertheless violate the claimed invariant: the server
sent `is_closed` true with `is_available` and `is_created` false, and the
construction copies the flags verbatim. -/
def badFacetResponse : AssignmentResponse where
  id := 1
  name := "a1"
  directory_path := "a1"
  absolute_directory_path := "/home/u/a1"
  created_date := 0
  adjusted_available_date := some 100
  adjusted_due_date := some 200
  last_modified_date := 50
  is_deferred := false
  is_extended := false
  is_created := false
  is_available := false
  is_closed := true
  submissions := none

/-- An assignment whose submissions arrive oldest-first, so the in-place
sort performed by the `activeSubmission` getter reorders them. -/
def sortMutationAssignment : Assignment where
  id := 2
  name := "a2"
  directoryPath := "a2"
  absoluteDirectoryPath := "/home/u/a2"
  createdDate := 0
  adjustedAvailableDate := some 10
  adjustedDueDate := some 20
  lastModifiedDate := 5
  isDeferred := false
  isExtended := false
  isCreated := true
  isAvailable := true
  isClosed := false
  submissions := some [{ id := 1, submissionTime := 1 }, { id := 2, submissionTime := 2 }]

/-- Slots holding a previously fetched snapshot (a non-empty assignment
list and a null current assignment), as they stand before a failing poll
iteration. -/
def prevSnapshotSlots : Slots where
  assignments := some (some [sortMutationAssignment])
  currentAssignment := some none

/-! ### Theorems -/

/-- Claim C1 (counterexample): a server response whose dates satisfy
due at-or-after available can still yield a constructed assignment whose
facets violate the claimed invariant, because `fromResponse` copies the
facet flags verbatim instead of deriving them: here the response carries
both dates, yet `is_created` is false and `is_closed` is true without
`is_available`. -/
theorem facets_not_derived_counterexample :
    badFacetResponse.datesOrdered = true ∧
    ¬ (Assignment.fromResponse badFacetResponse).facetOk := by
  exact ⟨by decide, by decide⟩

/-- Claim C1 (amended): `Assignment.fromResponse` copies the three facet
flags and both adjusted dates verbatim from the server response, so the
facet invariant (closed implies available implies created, created iff
both dates non-null) holds for the constructed assignment exactly when it
already holds for the response's own fields — the construction derives
nothing from the dates, even when due is at or after available. -/
theorem fromResponse_facets_verbatim (r : AssignmentResponse) :
    (Assignment.fromResponse r).isCreated = r.is_created ∧
    (Assignment.fromResponse r).isAvailable = r.is_available ∧
    (Assignment.fromResponse r).isClosed = r.is_closed ∧
    (Assignment.fromResponse r).adjustedAvailableDate = r.adjusted_available_date ∧
    (Assignment.fromResponse r).adjustedDueDate = r.adjusted_due_date ∧
    ((Assignment.fromResponse r).facetOk ↔ r.facetOk) := by
  have hav : (Assignment.fromResponse r).adjustedAvailableDate = r.adjusted_available_date := by
    cases h : r.adjusted_available_date <;> simp [Assignment.fromResponse, h]
  have hdu : (Assignment.fromResponse r).adjustedDueDate = r.adjusted_due_date := by
    cases h : r.adjusted_due_date <;> simp [Assignment.fromResponse, h]
  refine ⟨rfl, rfl, rfl, hav, hdu, ?_⟩
  unfold Assignment.facetOk AssignmentResponse.facetOk
  rw [hav, hdu]
  rfl

/-- Claim C2 (counterexample): a failed fetch does not leave the
previously stored snapshot untouched — the failing iteration overwrites
both slots, so the post-iteration slots differ from the pre-iteration
snapshot. -/
theorem poll_failure_clears_slots_counterexample :
    (pollIteration (some "hw1") (Except.error ()) false prevSnapshotSlots).1 ≠ prevSnapshotSlots := by
  decide

/-- Claim C2 (amended): when a fetch attempt of the assignment poll loop
fails, the iteration emits the non-fatal warning, still schedules the
next attempt, but resets both snapshot slots to the unfetched state
(`undefined`) rather than keeping the previous snapshot; after any number
of consecutive failures a subsequent successful fetch's result is written
into the slots. -/
theorem poll_failure_resets_then_recovers
    (p : String) (st : Slots) (fails : List (Except Unit GetAssignmentsResponse))
    (v : GetAssignmentsResponse)
    (hf : ∀ f ∈ fails, f = Except.error ()) :
    pollIteration (some p) (Except.error ()) false st =
      ({ assignments := none, currentAssignment := none }, [failWarning], true) ∧
    runPoll (some p) st (fails ++ [Except.ok v]) =
      { assignments := some v.assignments, currentAssignment := some v.currentAssignment } := by
  constructor
  · simp [pollIteration]
  · revert hf
    induction fails generalizing st with
    | nil =>
      intro _
      simp [runPoll, pollIteration]
    | cons f fs ih =>
      intro hf
      have h1 : f = Except.error () := hf f (List.mem_cons_self f fs)
      subst h1
      have hstep : (pollIteration (some p) (Except.error ()) false st).1 =
          { assignments := none, currentAssignment := none } := by
        simp [pollIteration]
      simp only [List.cons_append, runPoll, hstep]
      exact ih _ (fun g hg => hf g (List.mem_cons_of_mem _ hg))

/-- Witness for the amended claim C2, at a concrete previous snapshot,
two forced failures and a concrete final success. -/
theorem poll_failure_resets_then_recovers_witness :
    pollIteration (some "hw1") (Except.error ()) false prevSnapshotSlots =
      ({ assignments := none, currentAssignment := none }, [failWarning], true) ∧
    runPoll (some "hw1") prevSnapshotSlots
      ([Except.error (), Except.error ()] ++
        [Except.ok { assignments := some [], currentAssignment := some sortMutationAssignment }]) =
      { assignments := some (some []), currentAssignment := some (some sortMutationAssignment) } :=
  poll_failure_resets_then_recovers "hw1" prevSnapshotSlots
    [Except.error (), Except.error ()]
    { assignments := some [], currentAssignment := some sortMutationAssignment }
    (by
      intro f hf
      rcases List.mem_cons.mp hf with rfl | hf2
      · rfl
      · rcases List.mem_cons.mp hf2 with rfl | hf3
        · rfl
        · cases hf3)

/-- Claim C3: if the iteration's cancellation flag is set by the time the
fetch resolves, the iteration writes nothing — the snapshot slots of the
new context are left exactly as they were, whatever the fetch returned
and whatever path the iteration was started under. -/
theorem cancelled_poll_iteration_writes_nothing
    (currentPath : Option String) (fetchResult : Except Unit GetAssignmentsResponse)
    (st : Slots) :
    (pollIteration currentPath fetchResult true st).1 = st := by
  simp [pollIteration]

/-- Claim C4 (code behavior at the failing input): dispose the provider
(the effect cleanup closes the socket without detaching the close
listener), then let the socket's close event fire.  The still-attached
handler immediately constructs a replacement connection — the connection
count goes from 1 to 2 on a disposed client — and no reconnect is
scheduled with the declared one-second delay, because `triggerReconnect`
runs synchronously and never references `WEBSOCKET_REOPEN_DELAY`. -/
theorem disposed_close_reopens_connection :
    (onCloseEvent (disposeWs initialWsClient)).connectionsOpened = 2 ∧
    (onCloseEvent (disposeWs initialWsClient)).disposed = true ∧
    (onCloseEvent (disposeWs initialWsClient)).socketOpen = true ∧
    reconnectScheduleDelay ≠ some WEBSOCKET_REOPEN_DELAY := by
  decide

/-- Helper: the descending sort of a non-empty list is non-empty. -/
theorem sortSubmissions_ne_nil (l : List Submission) (h : l ≠ []) :
    sortSubmissions l ≠ [] := by
  intro hnil
  have hperm : List.Perm (sortSubmissions l) l := List.perm_insertionSort subTimeGe l
  rw [hnil] at hperm
  exact h hperm.nil_eq.symm

/-- Helper: the head of the descending sort is an element of the list
with a submission time at least that of every element. -/
theorem sortSubmissions_head_is_max (l : List Submission) (s : Submission)
    (rest : List Submission) (h : sortSubmissions l = s :: rest) :
    s ∈ l ∧ ∀ t, t ∈ l → t.submissionTime ≤ s.submissionTime := by
  have hperm : List.Perm (sortSubmissions l) l := List.perm_insertionSort subTimeGe l
  have hsorted : List.Sorted subTimeGe (sortSubmissions l) :=
    List.sorted_insertionSort subTimeGe l
  rw [h] at hperm hsorted
  constructor
  · exact hperm.mem_iff.mp (List.mem_cons_self s rest)
  · intro t ht
    rcases List.mem_cons.mp (hperm.mem_iff.mpr ht) with rfl | htr
    · exact le_refl _
    · exact List.rel_of_sorted_cons hsorted t htr

/-- Claim C5: `activeSubmission` is `undefined` when the submissions are
unknown, `null` when the submission list is empty, and otherwise some
submission of the list whose timestamp is greatest (at or above every
other submission's timestamp). -/
theorem activeSubmission_spec (a : Assignment) :
    (a.submissions = none → a.activeSubmission = none) ∧
    (a.submissions = some [] → a.activeSubmission = some none) ∧
    (∀ l, a.submissions = some l → l ≠ [] →
      ∃ s, a.activeSubmission = some (some s) ∧ s ∈ l ∧
        ∀ t, t ∈ l → t.submissionTime ≤ s.submissionTime) := by
  refine ⟨?_, ?_, ?_⟩
  · intro h
    simp [Assignment.activeSubmission, h]
  · intro h
    simp [Assignment.activeSubmission, h]
  · intro l hl hne
    obtain ⟨s, rest, hsr⟩ : ∃ s rest, sortSubmissions l = s :: rest := by
      cases hq : sortSubmissions l with
      | nil => exact absurd hq (sortSubmissions_ne_nil l hne)
      | cons s rest => exact ⟨s, rest, rfl⟩
    have hmax := sortSubmissions_head_is_max l s rest hsr
    refine ⟨s, ?_, hmax.1, hmax.2⟩
    have hlen : l.length ≠ 0 := by simpa using hne
    simp [Assignment.activeSubmission, hl, hlen, hsr]

/-- Witness for claim C5 at a concrete assignment holding two
submissions. -/
theorem activeSubmission_spec_witness :
    ∃ s, sortMutationAssignment.activeSubmission = some (some s) ∧
      s ∈ [({ id := 1, submissionTime := 1 } : Submission), { id := 2, submissionTime := 2 }] ∧
      ∀ t, t ∈ [({ id := 1, submissionTime := 1 } : Submission), { id := 2, submissionTime := 2 }] →
        t.submissionTime ≤ s.submissionTime :=
  (activeSubmission_spec sortMutationAssignment).2.2
    [{ id := 1, submissionTime := 1 }, { id := 2, submissionTime := 2 }] rfl (by decide)

/-- Claim C9 (counterexample): reading `activeSubmission` does not leave
the object unchanged — on an assignment whose submissions are stored
oldest-first, the getter's in-place sort reorders the submissions list,
so the post-read object differs from the pre-read object. -/
theorem activeSubmission_mutates_order_counterexample :
    sortMutationAssignment.activeSubmissionRead.2 ≠ sortMutationAssignment := by
  decide

/-- Claim C9 (amended): reading `activeSubmission` returns the derived
value and leaves every field except the submissions list unchanged; the
submissions list stays unknown if it was unknown and is otherwise
replaced by a permutation of itself (the in-place descending sort) — its
contents are preserved, but its order may change. -/
theorem activeSubmissionRead_frame (a : Assignment) :
    a.activeSubmissionRead.1 = a.activeSubmission ∧
    (a.activeSubmissionRead.2.id = a.id ∧
     a.activeSubmissionRead.2.name = a.name ∧
     a.activeSubmissionRead.2.directoryPath = a.directoryPath ∧
     a.activeSubmissionRead.2.absoluteDirectoryPath = a.absoluteDirectoryPath ∧
     a.activeSubmissionRead.2.createdDate = a.createdDate ∧
     a.activeSubmissionRead.2.adjustedAvailableDate = a.adjustedAvailableDate ∧
     a.activeSubmissionRead.2.adjustedDueDate = a.adjustedDueDate ∧
     a.activeSubmissionRead.2.lastModifiedDate = a.lastModifiedDate ∧
     a.activeSubmissionRead.2.isDeferred = a.isDeferred ∧
     a.activeSubmissionRead.2.isExtended = a.isExtended ∧
     a.activeSubmissionRead.2.isCreated = a.isCreated ∧
     a.activeSubmissionRead.2.isAvailable = a.isAvailable ∧
     a.activeSubmissionRead.2.isClosed = a.isClosed) ∧
    (a.activeSubmissionRead.2.submissions = none ↔ a.submissions = none) ∧
    (∀ l, a.submissions = some l →
      ∃ l2, a.activeSubmissionRead.2.submissions = some l2 ∧ l2.Perm l) := by
  cases hs : a.submissions with
  | none =>
    have hread : a.activeSubmissionRead = (none, a) := by
      simp [Assignment.activeSubmissionRead, hs]
    have hval : a.activeSubmission = none := by
      simp [Assignment.activeSubmission, hs]
    rw [hread, hval]
    refine ⟨rfl, ⟨rfl, rfl, rfl, rfl, rfl, rfl, rfl, rfl, rfl, rfl, rfl, rfl, rfl⟩, by simp [hs], ?_⟩
    intro l hl
    exact absurd hl (by simp)
  | some subs =>
    by_cases hlen : subs.length = 0
    · have hread : a.activeSubmissionRead = (some none, a) := by
        simp [Assignment.activeSubmissionRead, hs, hlen]
      have hval : a.activeSubmission = some none := by
        simp [Assignment.activeSubmission, hs, hlen]
      rw [hread, hval]
      refine ⟨rfl, ⟨rfl, rfl, rfl, rfl, rfl, rfl, rfl, rfl, rfl, rfl, rfl, rfl, rfl⟩, by simp [hs], ?_⟩
      intro l hl
      injection hl with hl2
      subst hl2
      exact ⟨subs, hs, List.Perm.refl subs⟩
    · have hread : a.activeSubmissionRead =
          (some (sortSubmissions subs).head?,
            { a with submissions := some (sortSubmissions subs) }) := by
        simp [Assignment.activeSubmissionRead, hs, hlen]
      have hval : a.activeSubmission = some (sortSubmissions subs).head? := by
        simp [Assignment.activeSubmission, hs, hlen]
      rw [hread, hval]
      refine ⟨rfl, ⟨rfl, rfl, rfl, rfl, rfl, rfl, rfl, rfl, rfl, rfl, rfl, rfl, rfl⟩, ?_, ?_⟩
      · simp [hs]
      · intro l hl
        injection hl with hl2
        subst hl2
        exact ⟨sortSubmissions subs, rfl, List.perm_insertionSort subTimeGe subs⟩

/-- Witness for the amended claim C9 at a concrete assignment: the
post-read submissions list exists and is a permutation of the original
two-element list. -/
theorem activeSubmissionRead_frame_witness :
    ∃ l2, sortMutationAssignment.activeSubmissionRead.2.submissions = some l2 ∧
      l2.Perm [({ id := 1, submissionTime := 1 } : Submission), { id := 2, submissionTime := 2 }] :=
  (activeSubmissionRead_frame sortMutationAssignment).2.2.2
    [{ id := 1, submissionTime := 1 }, { id := 2, submissionTime := 2 }] rfl

/-- Claim C6 (counterexample): three edits to the same field inside one
debounce window (wait 1000ms, edits at 0, 100 and 200) produce two
outbound writes — the leading write with the first value and the trailing
write with the last value — not exactly one. -/
theorem debounce_burst_two_writes_counterexample :
    runDebounce 1000 [(0, (1 : Nat)), (100, 2), (200, 3)] = [(0, 1), (1200, 3)] ∧
    (runDebounce 1000 [(0, (1 : Nat)), (100, 2), (200, 3)]).length ≠ 1 := by
  exact ⟨by decide, by decide⟩

/-- Claim C6 (amended): three edits to the same field within one debounce
window produce exactly two outbound writes — an immediate leading write
carrying the first value and one trailing write, at `wait` after the last
edit, carrying the last value; and edits to two different fields are
debounced by independent instances, a single edit to each producing
exactly one write per field carrying that field's value. -/
theorem debounce_burst_spec {V : Type} (wait t1 t2 t3 ta td : Nat)
    (v1 v2 v3 va vd : V)
    (h12 : t1 ≤ t2) (h23 : t2 ≤ t3) (hw2 : t2 < t1 + wait) (hw3 : t3 < t2 + wait) :
    runDebounce wait [(t1, v1), (t2, v2), (t3, v3)] = [(t1, v1), (t3 + wait, v3)] ∧
    writesFor wait EditField.availableDate
      [(EditField.availableDate, ta, va), (EditField.dueDate, td, vd)] = [(ta, va)] ∧
    writesFor wait EditField.dueDate
      [(EditField.availableDate, ta, va), (EditField.dueDate, td, vd)] = [(td, vd)] := by
  have h2 : ¬ (t1 + wait ≤ t2) := by omega
  have h3 : ¬ (t2 + wait ≤ t3) := by omega
  refine ⟨?_, ?_, ?_⟩
  · simp [runDebounce, debRun, fireTimer, debCall, debInit, h2, h3]
  · simp [writesFor, runDebounce, debRun, fireTimer, debCall, debInit, List.filter]
  · simp [writesFor, runDebounce, debRun, fireTimer, debCall, debInit, List.filter]

/-- Witness for the amended claim C6 at concrete times and values. -/
theorem debounce_burst_spec_witness :
    runDebounce 1000 [(0, (10 : Nat)), (100, 20), (200, 30)] = [(0, 10), (1200, 30)] ∧
    writesFor 1000 EditField.availableDate
      [(EditField.availableDate, 0, (10 : Nat)), (EditField.dueDate, 5, 40)] = [(0, 10)] ∧
    writesFor 1000 EditField.dueDate
      [(EditField.availableDate, 0, (10 : Nat)), (EditField.dueDate, 5, 40)] = [(5, 40)] :=
  debounce_burst_spec 1000 0 100 200 0 5 10 20 30 10 40
    (by omega) (by omega) (by omega) (by omega)

/-- Claim C7: a date edit that would put the due date at or before the
available date, or the available date at or after the due date, is
rejected client-side by the onChange handler — no write is handed to the
debounced mutation path and the controlled value is left unchanged. -/
theorem date_edit_validation (asg : EditorAssignment) (ctrlA ctrlD : Option Int)
    (nA nD : Int) :
    (∀ due, asg.dueDate = some due → due ≤ nA →
      onAvailableDateEdit asg ctrlA (some nA) = (ctrlA, [])) ∧
    (∀ av, asg.availableDate = some av → nD ≤ av →
      onDueDateEdit asg ctrlD (some nD) = (ctrlD, [])) := by
  constructor
  · intro due hdue hle
    simp [onAvailableDateEdit, hdue, hle]
  · intro av hav hle
    simp [onDueDateEdit, hav, hle]

/-- Witness for claim C7: on an assignment available at 100 and due at
200, setting the available date to 250 and setting the due date to 50 are
both rejected with no write and an unchanged controlled value. -/
theorem date_edit_validation_witness :
    onAvailableDateEdit { name := "a1", availableDate := some 100, dueDate := some 200 }
      (some 100) (some 250) = (some 100, []) ∧
    onDueDateEdit { name := "a1", availableDate := some 100, dueDate := some 200 }
      (some 200) (some 50) = (some 200, []) :=
  ⟨(date_edit_validation { name := "a1", availableDate := some 100, dueDate := some 200 }
      (some 100) (some 200) 250 50).1 200 rfl (by decide),
   (date_edit_validation { name := "a1", availableDate := some 100, dueDate := some 200 }
      (some 100) (some 200) 250 50).2 100 rfl (by decide)⟩

/-- Claim C8 (counterexample): an assignment with `isClosed` true but
`isAvailable` false is disabled, yet the reason shown is the
not-available message, not a past-due message — the reason chain tests
`!isAvailable` before `isClosed`. -/
theorem closed_unavailable_reason_counterexample :
    submitDisabled false "work done" (some { isAvailable := false, isClosed := true }) = true ∧
    submitDisabledReason false "work done" (some { isAvailable := false, isClosed := true })
      { instructors := 1 } = some notAvailableReason ∧
    notAvailableReason ≠ pastDueReason { instructors := 1 } ∧
    notAvailableReason ≠ pastDueReason { instructors := 2 } := by
  refine ⟨by decide, by decide, by decide, by decide⟩

/-- Claim C8 (amended): for every assignment whose facets report both
closed and available, when no submission upload is in flight, the submit
action is disabled and the reason shown is the past-due message. -/
theorem closed_gating_past_due (submitting : Bool) (summaryText : String)
    (a : GatingAssignment) (course : CourseInfo)
    (hClosed : a.isClosed = true) (hAvail : a.isAvailable = true)
    (hSub : submitting = false) :
    submitDisabled submitting summaryText (some a) = true ∧
    submitDisabledReason submitting summaryText (some a) course = some (pastDueReason course) := by
  subst hSub
  have hd : submitDisabled false summaryText (some a) = true := by
    simp [submitDisabled, hClosed]
  refine ⟨hd, ?_⟩
  simp [submitDisabledReason, hd, hClosed, hAvail]

/-- Witness for the amended claim C8 at a concrete closed-and-available
assignment and a one-instructor course. -/
theorem closed_gating_past_due_witness :
    submitDisabled false "done" (some { isAvailable := true, isClosed := true }) = true ∧
    submitDisabledReason false "done" (some { isAvailable := true, isClosed := true })
      { instructors := 1 } = some (pastDueReason { instructors := 1 }) :=
  closed_gating_past_due false "done" { isAvailable := true, isClosed := true }
    { instructors := 1 } rfl rfl rfl

/-- Claim C10: in the submit flow with a known path, the summary and
description inputs are cleared exactly when the submit request succeeds;
on a failed request both fields keep their pre-submit values and only the
error notification is opened.  The hypothesis that the pre-submit summary
is non-empty matches the gating, which never invokes the flow with an
empty summary. -/
theorem submit_clear_iff_success (p : String) (req : Except Unit Unit)
    (st : SubmitFormState) (hsum : st.summaryText ≠ "") :
    (((submitAssignmentFlow (some p) req st).1.summaryText = "" ∧
      (submitAssignmentFlow (some p) req st).1.descriptionText = "") ↔
        req = Except.ok ()) ∧
    (req = Except.error () →
      (submitAssignmentFlow (some p) req st).1 = st ∧
      (submitAssignmentFlow (some p) req st).2.1 = [SnackbarKind.error]) := by
  cases req with
  | ok u =>
    cases u
    simp [submitAssignmentFlow]
  | error e =>
    cases e
    simp [submitAssignmentFlow, hsum]

/-- Witness for claim C10 at a concrete failed request: the fields are
not cleared, the state is unchanged and only the error notification is
shown. -/
theorem submit_clear_iff_success_witness :
    (((submitAssignmentFlow (some "hw1") (Except.error ())
        { summaryText := "did work", descriptionText := "notes" }).1.summaryText = "" ∧
      (submitAssignmentFlow (some "hw1") (Except.error ())
        { summaryText := "did work", descriptionText := "notes" }).1.descriptionText = "") ↔
        (Except.error () : Except Unit Unit) = Except.ok ()) ∧
    ((Except.error () : Except Unit Unit) = Except.error () →
      (submitAssignmentFlow (some "hw1") (Except.error ())
        { summaryText := "did work", descriptionText := "notes" }).1 =
        { summaryText := "did work", descriptionText := "notes" } ∧
      (submitAssignmentFlow (some "hw1") (Except.error ())
        { summaryText := "did work", descriptionText := "notes" }).2.1 =
        [SnackbarKind.error]) :=
  submit_clear_iff_success "hw1" (Except.error ())
    { summaryText := "did work", descriptionText := "notes" } (by decide)
